import Mathlib

/-!
Shallow embedding of the native JNI bridging fragment of the
HealthTrackerApp repository:

  * android/app/src/main/jni/MainComponentsRegistry.h / .cpp
  * android/app/src/main/jni/MainApplicationModuleProvider.h

The C++ code is stateless forwarding glue over framework-owned state.
Stateful calls are modelled by explicit state passing on `FrameworkState`,
the process-wide state owned by the base GUI framework (the registry of
component descriptor providers lives there).  Each Lean definition below
is translated from the corresponding C++ function; framework helpers that
the fragment calls (the base registry accessor, the fbjni instance maker)
are modelled from what the spec says about them, as noted on each.
-/

namespace HealthTrackerJni

/-- A component descriptor provider entry held by the framework's registry.
Its internals are framework-owned and irrelevant to this fragment; a name
suffices to distinguish entries. -/
structure ComponentDescriptorProvider where
  componentName : String
deriving DecidableEq, Repr

/-- The process-wide registry of component descriptor providers
(`ComponentDescriptorProviderRegistry` in the C++ headers), owned and
populated by the base framework outside this fragment. -/
structure ComponentDescriptorProviderRegistry where
  providers : List ComponentDescriptorProvider
deriving DecidableEq, Repr

/-- The framework-owned process state visible to this fragment: the single
shared core registry of component descriptor providers. -/
structure FrameworkState where
  coreRegistry : ComponentDescriptorProviderRegistry
deriving DecidableEq, Repr

/-- A JNI `jclass` reference.  Its internals are opaque to the fragment;
an identifier suffices to distinguish distinct references. -/
structure Jclass where
  classId : Nat
deriving DecidableEq, Repr

/-- The C++ class `MainComponentsRegistry` (MainComponentsRegistry.h lines
11–28).  It declares no data members of its own, so an instance carries no
fields. -/
structure MainComponentsRegistry where
deriving DecidableEq, Repr

/-- Modelled from the spec: `CoreComponentsRegistry::sharedProviderRegistry`
is base-framework code outside this fragment; the spec describes the
registry as "owned and populated by the base framework infrastructure
outside this fragment" and the accessor side as a read accessor, so it
returns the shared core registry and leaves the state untouched. -/
def CoreComponentsRegistry.sharedProviderRegistry (s : FrameworkState) :
    ComponentDescriptorProviderRegistry × FrameworkState :=
  (s.coreRegistry, s)

/-- `MainComponentsRegistry::MainComponentsRegistry() {}`
(MainComponentsRegistry.cpp line 6): the default constructor has an empty
body, so it produces the field-less instance and touches no state. -/
def MainComponentsRegistry.construct (s : FrameworkState) :
    MainComponentsRegistry × FrameworkState :=
  (⟨⟩, s)

/-- `MainComponentsRegistry::sharedProviderRegistry`
(MainComponentsRegistry.cpp lines 8–12):
`auto providerRegistry = CoreComponentsRegistry::sharedProviderRegistry();
 return providerRegistry;`. -/
def MainComponentsRegistry.sharedProviderRegistry (s : FrameworkState) :
    ComponentDescriptorProviderRegistry × FrameworkState :=
  let providerRegistry := CoreComponentsRegistry.sharedProviderRegistry s
  providerRegistry

/-- Modelled from the spec: `makeCxxInstance` is the fbjni (host framework)
helper used by `initHybrid`; per the spec the only side effect of the
functions in this fragment is "object construction dictated by the host
framework's registration contract", i.e. it constructs the C++ instance
via the class's own constructor. -/
def MainComponentsRegistry.makeCxxInstance (s : FrameworkState) :
    MainComponentsRegistry × FrameworkState :=
  MainComponentsRegistry.construct s

/-- `MainComponentsRegistry::initHybrid(jni::alias_ref<jclass>)`
(MainComponentsRegistry.cpp lines 14–18):
`auto instance = makeCxxInstance(); return instance;`.
The `jclass` parameter is unnamed in the source and unused. -/
def MainComponentsRegistry.initHybrid (s : FrameworkState) (_cls : Jclass) :
    MainComponentsRegistry × FrameworkState :=
  let inst := MainComponentsRegistry.makeCxxInstance s
  inst

/-- Tags for the native C++ functions of this fragment that can be bound
as JNI native methods. -/
inductive NativeFn where
  | initHybridFn
deriving DecidableEq, Repr

/-- The function a `NativeFn` tag denotes. -/
def NativeFn.denote : NativeFn →
    FrameworkState → Jclass → MainComponentsRegistry × FrameworkState
  | .initHybridFn => MainComponentsRegistry.initHybrid

/-- A JNI native-method registration entry: a managed-code-visible name
bound to a native function. -/
structure NativeMethod where
  methodName : String
  boundFn : NativeFn
deriving DecidableEq, Repr

/-- The fbjni `makeNativeMethod(name, fn)` helper: pairs the
managed-visible name with the bound native function. -/
def makeNativeMethod (methodName : String) (boundFn : NativeFn) :
    NativeMethod :=
  ⟨methodName, boundFn⟩

/-- `MainComponentsRegistry::registerNatives`
(MainComponentsRegistry.cpp lines 20–24):
`registerHybrid({ makeNativeMethod("initHybrid",
MainComponentsRegistry::initHybrid) });` — the list of native methods it
registers with the host. -/
def MainComponentsRegistry.registerNatives : List NativeMethod :=
  [makeNativeMethod "initHybrid" NativeFn.initHybridFn]

/-- `MainComponentsRegistry::kJavaDescriptor`
(MainComponentsRegistry.h lines 14–15): the constexpr managed-code binding
name of the hybrid class. -/
def MainComponentsRegistry.kJavaDescriptor : String :=
  "Lcom/healthtracker/MainComponentsRegistry;"

/-- A `TurboModule` native module instance
(declared in ReactCommon/TurboModule.h, framework-owned). -/
structure TurboModule where
  moduleName : String
deriving DecidableEq, Repr

/-- A `CallInvoker` handle passed to module providers (framework-owned). -/
structure CallInvoker where
  invokerId : Nat
deriving DecidableEq, Repr

/-- Modelled from the spec: the body of `MainApplicationModuleProvider` is
not under src/ (only its declaration in MainApplicationModuleProvider.h
is).  The spec says it is "a stub returning no native modules" whose
result is "always empty/none in this fragment", so it returns no module
for every name and every jsInvoker. -/
def MainApplicationModuleProvider (_name : String)
    (_jsInvoker : CallInvoker) : Option TurboModule :=
  none

/-- The operations of the fragment, for stating fragment-wide properties. -/
inductive Op where
  | sharedProviderRegistryOp
  | initHybridOp (cls : Jclass)
  | registerNativesOp
  | constructorOp
deriving DecidableEq, Repr

/-- The possible results of an operation of the fragment. -/
inductive OpResult where
  | registryResult (r : ComponentDescriptorProviderRegistry)
  | hybridResult (h : MainComponentsRegistry)
  | methodsResult (ms : List NativeMethod)
deriving DecidableEq, Repr

/-- Run one operation of the fragment.  Error-returning branches of the
source would show up here as `.error`; the translation of each C++ body
has none. -/
def runOp (op : Op) (s : FrameworkState) :
    Except String (OpResult × FrameworkState) :=
  match op with
  | .sharedProviderRegistryOp =>
      let p := MainComponentsRegistry.sharedProviderRegistry s
      .ok (.registryResult p.1, p.2)
  | .initHybridOp cls =>
      let p := MainComponentsRegistry.initHybrid s cls
      .ok (.hybridResult p.1, p.2)
  | .registerNativesOp =>
      .ok (.methodsResult MainComponentsRegistry.registerNatives, s)
  | .constructorOp =>
      let p := MainComponentsRegistry.construct s
      .ok (.hybridResult p.1, p.2)

/-- C1: for every call (i.e. from every framework state),
`MainComponentsRegistry::sharedProviderRegistry` returns exactly the value
returned by `CoreComponentsRegistry::sharedProviderRegistry` — the base
framework's registry, unchanged — and has the same effect on state. -/
theorem sharedProviderRegistry_forwards_core (s : FrameworkState) :
    MainComponentsRegistry.sharedProviderRegistry s =
      CoreComponentsRegistry.sharedProviderRegistry s := rfl

/-- C2: for every module name and every jsInvoker,
`MainApplicationModuleProvider` returns no native module. -/
theorem mainApplicationModuleProvider_returns_none
    (name : String) (jsInvoker : CallInvoker) :
    MainApplicationModuleProvider name jsInvoker = none := rfl

/-- C3: `MainComponentsRegistry::sharedProviderRegistry` is a pure read
accessor: it leaves the framework state — in particular the list of
component descriptor providers of the registry — exactly as it was. -/
theorem sharedProviderRegistry_pure_read (s : FrameworkState) :
    (MainComponentsRegistry.sharedProviderRegistry s).2 = s ∧
      (MainComponentsRegistry.sharedProviderRegistry s).2.coreRegistry.providers
        = s.coreRegistry.providers :=
  ⟨rfl, rfl⟩

/-- C4: no operation of the fragment has an error path: for every
operation and every framework state, `runOp` returns `.ok`. -/
theorem runOp_no_error_path (op : Op) (s : FrameworkState) :
    ∃ r, runOp op s = Except.ok r := by
  cases op <;> exact ⟨_, rfl⟩

/-- C5: `sharedProviderRegistry` changes no state at all, and
`initHybrid` does exactly what constructing a new hybrid instance via
`makeCxxInstance` does — returning that fresh instance — and nothing
else. -/
theorem fragment_functions_no_side_effects (s : FrameworkState)
    (cls : Jclass) :
    (MainComponentsRegistry.sharedProviderRegistry s).2 = s ∧
      MainComponentsRegistry.initHybrid s cls =
        MainComponentsRegistry.makeCxxInstance s :=
  ⟨rfl, rfl⟩

/-- C6: `MainComponentsRegistry::registerNatives` registers exactly one
native method, whose managed-visible name is "initHybrid" and whose bound
function is `MainComponentsRegistry::initHybrid`. -/
theorem registerNatives_registers_exactly_initHybrid :
    MainComponentsRegistry.registerNatives.length = 1 ∧
      MainComponentsRegistry.registerNatives.map NativeMethod.methodName
        = ["initHybrid"] ∧
      MainComponentsRegistry.registerNatives.map
          (fun m => NativeFn.denote m.boundFn)
        = [MainComponentsRegistry.initHybrid] :=
  ⟨rfl, rfl, rfl⟩

/-- C7: `sharedProviderRegistry` is deterministic: from any two states
whose base registry is the same (no external mutation of the base
registry between the calls), the two calls return equal results. -/
theorem sharedProviderRegistry_deterministic (s₁ s₂ : FrameworkState)
    (h : s₁.coreRegistry = s₂.coreRegistry) :
    (MainComponentsRegistry.sharedProviderRegistry s₁).1 =
      (MainComponentsRegistry.sharedProviderRegistry s₂).1 := by
  simpa [MainComponentsRegistry.sharedProviderRegistry,
    CoreComponentsRegistry.sharedProviderRegistry] using h

/-- Witness for C7: applied at two concrete states carrying the same base
registry. -/
theorem sharedProviderRegistry_deterministic_witness :
    (⟨⟨[⟨ "RCTView" ⟩]⟩⟩ : FrameworkState).coreRegistry
        = (⟨⟨[⟨ "RCTView" ⟩]⟩⟩ : FrameworkState).coreRegistry ∧
      (MainComponentsRegistry.sharedProviderRegistry ⟨⟨[⟨ "RCTView" ⟩]⟩⟩).1
        = (MainComponentsRegistry.sharedProviderRegistry
            ⟨⟨[⟨ "RCTView" ⟩]⟩⟩).1 :=
  ⟨rfl, sharedProviderRegistry_deterministic ⟨⟨[⟨ "RCTView" ⟩]⟩⟩
    ⟨⟨[⟨ "RCTView" ⟩]⟩⟩ rfl⟩

/-- C8: `initHybrid` ignores its jclass argument: for any two jclass
values the calls behave identically, each returning the freshly
constructed hybrid instance made via `makeCxxInstance`. -/
theorem initHybrid_ignores_jclass (s : FrameworkState) (c₁ c₂ : Jclass) :
    MainComponentsRegistry.initHybrid s c₁
        = MainComponentsRegistry.initHybrid s c₂ ∧
      (MainComponentsRegistry.initHybrid s c₁).1
        = (MainComponentsRegistry.makeCxxInstance s).1 :=
  ⟨rfl, rfl⟩

/-- C9: the default constructor has an empty body: constructing an
instance leaves all state unchanged, and any two freshly constructed
instances are equal (the class has no fields to distinguish them). -/
theorem construct_empty_body (s₁ s₂ : FrameworkState) :
    (MainComponentsRegistry.construct s₁).2 = s₁ ∧
      (MainComponentsRegistry.construct s₁).1
        = (MainComponentsRegistry.construct s₂).1 :=
  ⟨rfl, rfl⟩

/-- C10: the managed-code binding name of the hybrid class is the
constant string "Lcom/healthtracker/MainComponentsRegistry;": it is a
closed constant, depending on nothing, so it never changes. -/
theorem kJavaDescriptor_value :
    MainComponentsRegistry.kJavaDescriptor
      = "Lcom/healthtracker/MainComponentsRegistry;" := rfl

end HealthTrackerJni
